import Mathlib

/-!
Verification of `src/drivers/input/input_processor_absolute_to_relative.c`:
a ZMK input processor that converts absolute touch-position events into
relative motion events, gated on the touch-contact state, with a one-pole
smoothing filter per axis.

The shallow embedding below mirrors the C source. Machine integers are
modelled as `Nat` (for `uint16_t`) and `Int` (for `int16_t` / `int32_t`
values) with explicit truncation functions where the C code converts or
stores into a narrower type. C `>>` on a (32-bit) `int` holding a small
value is an arithmetic right shift, i.e. floor division by a power of two.
Mutation of the event record and of the per-instance data is modelled by
returning updated copies.
-/

namespace AbsToRel

/-- Truncation of an integer to signed 16-bit two's-complement semantics:
the unique representative in `[-32768, 32768)` congruent mod `2^16`.
Models a C store into `int16_t` and the cast `(int16_t)`. -/
def toInt16 (x : Int) : Int := (x + 32768) % 65536 - 32768

/-- Conversion of an integer to `uint16_t`: the low 16 bits, in `[0, 65536)`.
Models the C conversion in `const uint16_t value = event->value;`. -/
def toUInt16 (x : Int) : Nat := (x % 65536).toNat

/-- Arithmetic (sign-preserving) right shift by one, as C `>> 1` on an
`int` that is within the 32-bit range: floor division by 2. -/
def asr1 (x : Int) : Int := x / 2

/-- Sentinel for an uninitialized coordinate (`#define COORD_UNINITIALIZED UINT16_MAX`). -/
def COORD_UNINITIALIZED : Nat := 65535

/-- Sentinel event code used to mark a suppressed event
(`#define COORD_INVALID_ZERO 0xFFF`). -/
def COORD_INVALID_ZERO : Nat := 0xFFF

/-- Zephyr input event type `INPUT_EV_KEY`. -/
def INPUT_EV_KEY : Nat := 0x01

/-- Zephyr input event type `INPUT_EV_REL`. -/
def INPUT_EV_REL : Nat := 0x02

/-- Zephyr input event type `INPUT_EV_ABS`. -/
def INPUT_EV_ABS : Nat := 0x03

/-- Zephyr input event code `INPUT_BTN_TOUCH`. -/
def INPUT_BTN_TOUCH : Nat := 0x14a

/-- Zephyr input event code `INPUT_BTN_0`. -/
def INPUT_BTN_0 : Nat := 0x100

/-- Zephyr input event code `INPUT_ABS_X`. -/
def INPUT_ABS_X : Nat := 0x00

/-- Zephyr input event code `INPUT_ABS_Y`. -/
def INPUT_ABS_Y : Nat := 0x01

/-- Zephyr input event code `INPUT_REL_X`. -/
def INPUT_REL_X : Nat := 0x00

/-- Zephyr input event code `INPUT_REL_Y`. -/
def INPUT_REL_Y : Nat := 0x01

/-- ZMK input processor disposition: continue propagating the event. -/
def ZMK_INPUT_PROC_CONTINUE : Nat := 0

/-- ZMK input processor disposition: stop propagating the event. -/
def ZMK_INPUT_PROC_STOP : Nat := 1

/-- The mutable fields of Zephyr's `struct input_event` that the driver
reads or writes: `type` and `code` are unsigned, `value` is `int32_t`,
`sync` is a flag. -/
structure input_event where
  type : Nat
  code : Nat
  value : Int
  sync : Bool
deriving DecidableEq

/-- Embedding of `struct absolute_to_relative_config`. -/
structure absolute_to_relative_config where
  suppress_btn_touch : Bool
  suppress_btn0 : Bool
deriving DecidableEq

/-- Embedding of `struct absolute_to_relative_data` (the `dev` back-pointer
carries no core state and is omitted). `previous_x`/`previous_y` are
`uint16_t`, `previous_dx`/`previous_dy` are `int16_t`. -/
structure absolute_to_relative_data where
  previous_x : Nat
  previous_y : Nat
  previous_dx : Int
  previous_dy : Int
  touching : Bool
deriving DecidableEq

/-- Source function `touch_init`: reset both axes to the uninitialized
sentinel and zero the previous deltas. -/
def touch_init (data : absolute_to_relative_data) : absolute_to_relative_data :=
  { data with
    previous_x := COORD_UNINITIALIZED
    previous_y := COORD_UNINITIALIZED
    previous_dx := 0
    previous_dy := 0 }

/-- Result of `process_axis`: the returned `bool`, the (possibly mutated)
event, and the values written back through `previous_pos` / `previous_delta`. -/
structure AxisResult where
  suppress : Bool
  event : input_event
  previous_pos : Nat
  previous_delta : Int
deriving DecidableEq

/-- Source function `process_axis`: absolute-to-relative conversion for a
single axis. If the previous position is the sentinel, record the sample,
mark the event invalid and signal suppression; otherwise compute the signed
16-bit delta, smooth it with the previous raw delta via an arithmetic right
shift, and rewrite the event as a relative-motion event. -/
def process_axis (event : input_event) (previous_pos : Nat) (previous_delta : Int)
    (rel_code : Nat) : AxisResult :=
  let value : Nat := toUInt16 event.value
  let prev : Nat := previous_pos
  if prev = COORD_UNINITIALIZED then
    { suppress := true
      event := { event with code := COORD_INVALID_ZERO, sync := false }
      previous_pos := value
      previous_delta := 0 }
  else
    let delta : Int := toInt16 (toInt16 (value : Int) - toInt16 (prev : Int))
    let smooth_delta : Int := toInt16 (asr1 (delta + previous_delta))
    { suppress := false
      event := { event with
        type := INPUT_EV_REL
        code := rel_code
        value := smooth_delta }
      previous_pos := value
      previous_delta := delta }

/-- Result of a handler: the returned disposition, the (possibly mutated)
event, and the updated per-instance data. -/
structure HandlerResult where
  disposition : Nat
  event : input_event
  data : absolute_to_relative_data
deriving DecidableEq

/-- Source function `handle_touch_button`: update `touching` (and reset the
axes on a contact start, i.e. `value == 1`), then optionally suppress the
event. -/
def handle_touch_button (event : input_event) (data : absolute_to_relative_data)
    (config : absolute_to_relative_config) : HandlerResult :=
  let data' :=
    if event.value = 1 then touch_init { data with touching := true }
    else { data with touching := false }
  if config.suppress_btn_touch then
    { disposition := ZMK_INPUT_PROC_STOP
      event := { event with code := COORD_INVALID_ZERO, sync := false }
      data := data' }
  else
    { disposition := ZMK_INPUT_PROC_CONTINUE, event := event, data := data' }

/-- Source function `handle_button_suppress`: optionally suppress a `BTN_0`
event; touches no per-instance state. -/
def handle_button_suppress (event : input_event)
    (config : absolute_to_relative_config) : Nat × input_event :=
  if config.suppress_btn0 then
    (ZMK_INPUT_PROC_STOP, { event with code := COORD_INVALID_ZERO, sync := false })
  else
    (ZMK_INPUT_PROC_CONTINUE, event)

/-- Source function `absolute_to_relative_handle_event`: the main per-event
entry point. -/
def absolute_to_relative_handle_event (config : absolute_to_relative_config)
    (data : absolute_to_relative_data) (event : input_event) : HandlerResult :=
  if event.type = INPUT_EV_KEY ∧ event.code = INPUT_BTN_TOUCH then
    handle_touch_button event data config
  else if event.type = INPUT_EV_KEY ∧ event.code = INPUT_BTN_0 then
    let r := handle_button_suppress event config
    { disposition := r.1, event := r.2, data := data }
  else if data.touching = false ∨ event.type ≠ INPUT_EV_ABS then
    { disposition := ZMK_INPUT_PROC_CONTINUE, event := event, data := data }
  else if event.code = INPUT_ABS_X then
    let r := process_axis event data.previous_x data.previous_dx INPUT_REL_X
    { disposition := if r.suppress then ZMK_INPUT_PROC_STOP else ZMK_INPUT_PROC_CONTINUE
      event := r.event
      data := { data with previous_x := r.previous_pos, previous_dx := r.previous_delta } }
  else if event.code = INPUT_ABS_Y then
    let r := process_axis event data.previous_y data.previous_dy INPUT_REL_Y
    { disposition := if r.suppress then ZMK_INPUT_PROC_STOP else ZMK_INPUT_PROC_CONTINUE
      event := r.event
      data := { data with previous_y := r.previous_pos, previous_dy := r.previous_delta } }
  else
    { disposition := ZMK_INPUT_PROC_CONTINUE, event := event, data := data }

/-- The initial per-instance data, as set by the static initializer in
`ABSOLUTE_TO_RELATIVE_INST` and `absolute_to_relative_init`. -/
def absolute_to_relative_init_data : absolute_to_relative_data :=
  { previous_x := COORD_UNINITIALIZED
    previous_y := COORD_UNINITIALIZED
    previous_dx := 0
    previous_dy := 0
    touching := false }

/-- Observation: the smoothing state (stored position) of the axis matching
an absolute-axis event code. -/
def axisPos (d : absolute_to_relative_data) (c : Nat) : Nat :=
  if c = INPUT_ABS_X then d.previous_x else d.previous_y

/-- Observation: the previous raw delta of the axis matching an
absolute-axis event code. -/
def axisDelta (d : absolute_to_relative_data) (c : Nat) : Int :=
  if c = INPUT_ABS_X then d.previous_dx else d.previous_dy

/-- Observation: the stored position of the opposite axis. -/
def otherAxisPos (d : absolute_to_relative_data) (c : Nat) : Nat :=
  if c = INPUT_ABS_X then d.previous_y else d.previous_x

/-- Observation: the previous raw delta of the opposite axis. -/
def otherAxisDelta (d : absolute_to_relative_data) (c : Nat) : Int :=
  if c = INPUT_ABS_X then d.previous_dy else d.previous_dx

/-- Instance state extended with ghost history: per axis, whether an axis
sample has been accepted (routed to `process_axis`) since the most recent
reset, and the low 16 bits of the most recently accepted sample. -/
structure TraceState where
  st : absolute_to_relative_data
  acceptedX : Bool
  lastX : Nat
  acceptedY : Bool
  lastY : Nat
deriving DecidableEq

/-- One event-handling step of the instance, paired with the ghost history
update: a contact-start clears the accepted marks (a reset); a sample
routed to an axis while contact is active marks that axis accepted and
records the sample's low 16 bits; everything else leaves the ghost alone. -/
def ghostStep (config : absolute_to_relative_config) (s : TraceState)
    (e : input_event) : TraceState :=
  let st' := (absolute_to_relative_handle_event config s.st e).data
  if e.type = INPUT_EV_KEY ∧ e.code = INPUT_BTN_TOUCH then
    if e.value = 1 then
      { st := st', acceptedX := false, lastX := s.lastX, acceptedY := false, lastY := s.lastY }
    else
      { s with st := st' }
  else if s.st.touching = true ∧ e.type = INPUT_EV_ABS ∧ e.code = INPUT_ABS_X then
    { st := st', acceptedX := true, lastX := toUInt16 e.value,
      acceptedY := s.acceptedY, lastY := s.lastY }
  else if s.st.touching = true ∧ e.type = INPUT_EV_ABS ∧ e.code = INPUT_ABS_Y then
    { st := st', acceptedX := s.acceptedX, lastX := s.lastX,
      acceptedY := true, lastY := toUInt16 e.value }
  else
    { s with st := st' }

/-- The ghost-extended state at instance creation: no sample accepted yet. -/
def initTraceState : TraceState :=
  { st := absolute_to_relative_init_data, acceptedX := false, lastX := 0,
    acceptedY := false, lastY := 0 }

/-- States of a filter instance reachable from creation by handling any
sequence of events. -/
inductive Reachable (config : absolute_to_relative_config) : TraceState → Prop
  | init : Reachable config initTraceState
  | step {s : TraceState} (h : Reachable config s) (e : input_event) :
      Reachable config (ghostStep config s e)

/-- Relation between the ghost history and the stored axis state: an
accepted axis stores exactly the last accepted sample's low 16 bits, an
axis with no accepted sample since the last reset stores the sentinel. -/
def GhostInv (s : TraceState) : Prop :=
  (s.acceptedX = true → s.st.previous_x = s.lastX) ∧
  (s.acceptedX = false → s.st.previous_x = COORD_UNINITIALIZED) ∧
  (s.acceptedY = true → s.st.previous_y = s.lastY) ∧
  (s.acceptedY = false → s.st.previous_y = COORD_UNINITIALIZED)

/-- Casting a `Nat` below `2^16` through `toUInt16` is the identity. -/
theorem toUInt16_ofNat (n : Nat) (h : n < 65536) : toUInt16 (n : Int) = n := by
  unfold toUInt16; omega

/-- Casting an in-range `Int` through `toUInt16` and back is the identity. -/
theorem toUInt16_int_cast (x : Int) (h0 : 0 ≤ x) (h1 : x < 65536) :
    (toUInt16 x : Int) = x := by
  unfold toUInt16; omega

/-- Truncation to `int16_t` is the identity on in-range values. -/
theorem toInt16_eq_self (x : Int) (h1 : -32768 ≤ x) (h2 : x < 32768) : toInt16 x = x := by
  unfold toInt16; omega

/-- Truncating the difference of two truncated values truncates the plain
difference. -/
theorem toInt16_sub_toInt16 (a b : Int) :
    toInt16 (toInt16 a - toInt16 b) = toInt16 (a - b) := by
  unfold toInt16; omega

/-- Range of a truncated value. -/
theorem toInt16_bounds (x : Int) : -32768 ≤ toInt16 x ∧ toInt16 x < 32768 := by
  unfold toInt16; omega

/-- Shifting a value in the doubled `int16_t` range lands in the `int16_t`
range. -/
theorem asr1_bounds (x : Int) (h1 : -65536 ≤ x) (h2 : x < 65536) :
    -32768 ≤ asr1 x ∧ asr1 x < 32768 := by
  unfold asr1; omega

/-- Behaviour of `process_axis` on an uninitialized axis. -/
theorem process_axis_unset (e : input_event) (pd : Int) (rc : Nat) :
    process_axis e COORD_UNINITIALIZED pd rc =
      { suppress := true
        event := { e with code := COORD_INVALID_ZERO, sync := false }
        previous_pos := toUInt16 e.value
        previous_delta := 0 } := by
  simp [process_axis]

/-- Behaviour of `process_axis` on an initialized axis. -/
theorem process_axis_set (e : input_event) (prev : Nat) (pd : Int) (rc : Nat)
    (h : prev ≠ COORD_UNINITIALIZED) :
    process_axis e prev pd rc =
      { suppress := false
        event := { e with
          type := INPUT_EV_REL
          code := rc
          value := toInt16 (asr1 (toInt16 ((toUInt16 e.value : Int) - (prev : Int)) + pd)) }
        previous_pos := toUInt16 e.value
        previous_delta := toInt16 ((toUInt16 e.value : Int) - (prev : Int)) } := by
  simp only [process_axis, if_neg h, toInt16_sub_toInt16]

/-- Routing: a `BTN_TOUCH` key event goes to `handle_touch_button`. -/
theorem handle_event_key_touch (config : absolute_to_relative_config)
    (data : absolute_to_relative_data) (e : input_event)
    (htype : e.type = INPUT_EV_KEY) (hcode : e.code = INPUT_BTN_TOUCH) :
    absolute_to_relative_handle_event config data e = handle_touch_button e data config := by
  simp [absolute_to_relative_handle_event, htype, hcode]

/-- Routing: a `BTN_0` key event goes to `handle_button_suppress` and the
per-instance data is untouched. -/
theorem handle_event_key_btn0 (config : absolute_to_relative_config)
    (data : absolute_to_relative_data) (e : input_event)
    (htype : e.type = INPUT_EV_KEY) (hcode : e.code = INPUT_BTN_0) :
    absolute_to_relative_handle_event config data e =
      { disposition := (handle_button_suppress e config).1
        event := (handle_button_suppress e config).2
        data := data } := by
  simp [absolute_to_relative_handle_event, htype, hcode, INPUT_BTN_0, INPUT_BTN_TOUCH]

/-- Routing: an absolute-axis event with no active contact passes through. -/
theorem handle_event_pass_not_touching (config : absolute_to_relative_config)
    (data : absolute_to_relative_data) (e : input_event)
    (ht : data.touching = false) (htype : e.type = INPUT_EV_ABS) :
    absolute_to_relative_handle_event config data e =
      { disposition := ZMK_INPUT_PROC_CONTINUE, event := e, data := data } := by
  simp [absolute_to_relative_handle_event, htype, ht, INPUT_EV_ABS, INPUT_EV_KEY]

/-- Routing: an `ABS_X` event with active contact goes to `process_axis`
on the X state. -/
theorem handle_event_abs_x (config : absolute_to_relative_config)
    (data : absolute_to_relative_data) (e : input_event)
    (ht : data.touching = true) (htype : e.type = INPUT_EV_ABS) (hcode : e.code = INPUT_ABS_X) :
    absolute_to_relative_handle_event config data e =
      { disposition := if (process_axis e data.previous_x data.previous_dx INPUT_REL_X).suppress
                       then ZMK_INPUT_PROC_STOP else ZMK_INPUT_PROC_CONTINUE
        event := (process_axis e data.previous_x data.previous_dx INPUT_REL_X).event
        data := { data with
                  previous_x := (process_axis e data.previous_x data.previous_dx INPUT_REL_X).previous_pos
                  previous_dx := (process_axis e data.previous_x data.previous_dx INPUT_REL_X).previous_delta } } := by
  simp [absolute_to_relative_handle_event, htype, ht, hcode, INPUT_EV_ABS, INPUT_EV_KEY, INPUT_ABS_X]

/-- Routing: an `ABS_Y` event with active contact goes to `process_axis`
on the Y state. -/
theorem handle_event_abs_y (config : absolute_to_relative_config)
    (data : absolute_to_relative_data) (e : input_event)
    (ht : data.touching = true) (htype : e.type = INPUT_EV_ABS) (hcode : e.code = INPUT_ABS_Y) :
    absolute_to_relative_handle_event config data e =
      { disposition := if (process_axis e data.previous_y data.previous_dy INPUT_REL_Y).suppress
                       then ZMK_INPUT_PROC_STOP else ZMK_INPUT_PROC_CONTINUE
        event := (process_axis e data.previous_y data.previous_dy INPUT_REL_Y).event
        data := { data with
                  previous_y := (process_axis e data.previous_y data.previous_dy INPUT_REL_Y).previous_pos
                  previous_dy := (process_axis e data.previous_y data.previous_dy INPUT_REL_Y).previous_delta } } := by
  simp [absolute_to_relative_handle_event, htype, ht, hcode, INPUT_EV_ABS, INPUT_EV_KEY,
        INPUT_ABS_X, INPUT_ABS_Y]

/-- Any event that is neither a `BTN_TOUCH` key event nor an accepted axis
sample leaves the per-instance data unchanged. -/
theorem handle_event_data_unch (config : absolute_to_relative_config)
    (st : absolute_to_relative_data) (e : input_event)
    (h1 : ¬(e.type = INPUT_EV_KEY ∧ e.code = INPUT_BTN_TOUCH))
    (h2 : ¬(st.touching = true ∧ e.type = INPUT_EV_ABS ∧ e.code = INPUT_ABS_X))
    (h3 : ¬(st.touching = true ∧ e.type = INPUT_EV_ABS ∧ e.code = INPUT_ABS_Y)) :
    (absolute_to_relative_handle_event config st e).data = st := by
  unfold absolute_to_relative_handle_event
  split
  · exact absurd ‹_› h1
  · split
    · rfl
    · split
      · rfl
      · rename_i hk hpass
        have hta : st.touching = true ∧ e.type = INPUT_EV_ABS := by
          push_neg at hpass
          exact ⟨by simpa using hpass.1, hpass.2⟩
        split
        · exact absurd ⟨hta.1, hta.2, ‹_›⟩ h2
        · split
          · exact absurd ⟨hta.1, hta.2, ‹_›⟩ h3
          · rfl

/-- The ghost-history relation `GhostInv` holds at every reachable state. -/
theorem ghostInv_reachable (config : absolute_to_relative_config) (s : TraceState)
    (h : Reachable config s) : GhostInv s := by
  induction h with
  | init => exact ⟨by decide, by decide, by decide, by decide⟩
  | step h e ih =>
    rename_i s
    unfold ghostStep
    split
    · rename_i hkt
      split
      · rw [handle_event_key_touch config s.st e hkt.1 hkt.2]
        constructor
        · intro hfalse; simp at hfalse
        refine ⟨?_, ?_, ?_⟩
        · intro _
          cases hc : config.suppress_btn_touch <;>
            simp [handle_touch_button, ‹e.value = 1›, hc, touch_init]
        · intro hfalse; simp at hfalse
        · intro _
          cases hc : config.suppress_btn_touch <;>
            simp [handle_touch_button, ‹e.value = 1›, hc, touch_init]
      · rename_i hv
        have hd : (absolute_to_relative_handle_event config s.st e).data
            = { s.st with touching := false } := by
          rw [handle_event_key_touch config s.st e hkt.1 hkt.2]
          cases hc : config.suppress_btn_touch <;>
            simp [handle_touch_button, hv, hc]
        refine ⟨?_, ?_, ?_, ?_⟩ <;> intro ha <;> simp [hd]
        · exact (ih.1 ha)
        · exact (ih.2.1 ha)
        · exact (ih.2.2.1 ha)
        · exact (ih.2.2.2 ha)
    · split
      · rename_i hnk hx
        rw [handle_event_abs_x config s.st e hx.1 hx.2.1 hx.2.2]
        refine ⟨?_, ?_, ?_, ?_⟩ <;> intro ha
        · by_cases hprev : s.st.previous_x = COORD_UNINITIALIZED
          · simp [hprev, process_axis_unset]
          · simp [process_axis_set e _ _ _ hprev]
        · simp at ha
        · simp
          exact ih.2.2.1 ha
        · simp
          exact ih.2.2.2 ha
      · split
        · rename_i hnk hnx hy
          rw [handle_event_abs_y config s.st e hy.1 hy.2.1 hy.2.2]
          refine ⟨?_, ?_, ?_, ?_⟩ <;> intro ha
          · simp
            exact ih.1 ha
          · simp
            exact ih.2.1 ha
          · by_cases hprev : s.st.previous_y = COORD_UNINITIALIZED
            · simp [hprev, process_axis_unset]
            · simp [process_axis_set e _ _ _ hprev]
          · simp at ha
        · rename_i hnk hnx hny
          have hd := handle_event_data_unch config s.st e hnk hnx hny
          refine ⟨?_, ?_, ?_, ?_⟩ <;> intro ha <;> simp [hd]
          · exact ih.1 ha
          · exact ih.2.1 ha
          · exact ih.2.2.1 ha
          · exact ih.2.2.2 ha

/-- C1: for an axis with a valid prior position `p0` (and sample values in
the hardware range, with raw deltas representable in `int16_t`), the call
right after a reset emits `((p1 - p0) + 0) >> 1` and records raw delta
`p1 - p0`; the next call emits `((p2 - p1) + (p1 - p0)) >> 1`; the shift
is arithmetic, rounding toward minus infinity. Concretely, after a
contact-start the X samples 100, 110, 115 yield Suppress, Emit 5, Emit 7,
and the Y samples 500, 498 yield Suppress then Emit (-1). -/
theorem C1_first_deltas_smoothing (p0 p1 p2 : Nat)
    (h0 : p0 < 65535) (h1 : p1 < 65535) (h2 : p2 < 65536)
    (hd1a : -32768 ≤ (p1 : Int) - (p0 : Int)) (hd1b : (p1 : Int) - (p0 : Int) < 32768)
    (hd2a : -32768 ≤ (p2 : Int) - (p1 : Int)) (hd2b : (p2 : Int) - (p1 : Int) < 32768) :
    (let r1 := process_axis ⟨INPUT_EV_ABS, INPUT_ABS_X, (p1 : Int), true⟩ p0 0 INPUT_REL_X
     let r2 := process_axis ⟨INPUT_EV_ABS, INPUT_ABS_X, (p2 : Int), true⟩
                 r1.previous_pos r1.previous_delta INPUT_REL_X
     r1.suppress = false ∧ r1.event.type = INPUT_EV_REL ∧ r1.event.code = INPUT_REL_X ∧
     r1.event.value = asr1 (((p1 : Int) - (p0 : Int)) + 0) ∧
     r1.previous_pos = p1 ∧ r1.previous_delta = (p1 : Int) - (p0 : Int) ∧
     r2.suppress = false ∧ r2.event.type = INPUT_EV_REL ∧
     r2.event.value = asr1 (((p2 : Int) - (p1 : Int)) + ((p1 : Int) - (p0 : Int)))) ∧
    (let cfg : absolute_to_relative_config := ⟨false, false⟩
     let r1 := absolute_to_relative_handle_event cfg absolute_to_relative_init_data
                 ⟨INPUT_EV_KEY, INPUT_BTN_TOUCH, 1, true⟩
     let r2 := absolute_to_relative_handle_event cfg r1.data ⟨INPUT_EV_ABS, INPUT_ABS_X, 100, true⟩
     let r3 := absolute_to_relative_handle_event cfg r2.data ⟨INPUT_EV_ABS, INPUT_ABS_X, 110, true⟩
     let r4 := absolute_to_relative_handle_event cfg r3.data ⟨INPUT_EV_ABS, INPUT_ABS_X, 115, true⟩
     let r5 := absolute_to_relative_handle_event cfg r4.data ⟨INPUT_EV_ABS, INPUT_ABS_Y, 500, true⟩
     let r6 := absolute_to_relative_handle_event cfg r5.data ⟨INPUT_EV_ABS, INPUT_ABS_Y, 498, true⟩
     r1.disposition = ZMK_INPUT_PROC_CONTINUE ∧ r1.data.touching = true ∧
     r1.data.previous_x = COORD_UNINITIALIZED ∧ r1.data.previous_y = COORD_UNINITIALIZED ∧
     r2.disposition = ZMK_INPUT_PROC_STOP ∧
     r3.disposition = ZMK_INPUT_PROC_CONTINUE ∧ r3.event.type = INPUT_EV_REL ∧
     r3.event.code = INPUT_REL_X ∧ r3.event.value = 5 ∧
     r4.disposition = ZMK_INPUT_PROC_CONTINUE ∧ r4.event.value = 7 ∧
     r5.disposition = ZMK_INPUT_PROC_STOP ∧
     r6.disposition = ZMK_INPUT_PROC_CONTINUE ∧ r6.event.type = INPUT_EV_REL ∧
     r6.event.code = INPUT_REL_Y ∧ r6.event.value = -1) := by
  constructor
  · have hp0 : p0 ≠ COORD_UNINITIALIZED := by unfold COORD_UNINITIALIZED; omega
    have hp1 : p1 ≠ COORD_UNINITIALIZED := by unfold COORD_UNINITIALIZED; omega
    have hu1 : toUInt16 ((p1 : Nat) : Int) = p1 := toUInt16_ofNat p1 (by omega)
    have hu2 : toUInt16 ((p2 : Nat) : Int) = p2 := toUInt16_ofNat p2 (by omega)
    have e1 : toInt16 ((p1 : Int) - (p0 : Int)) = (p1 : Int) - (p0 : Int) :=
      toInt16_eq_self _ hd1a hd1b
    have e2 : toInt16 ((p2 : Int) - (p1 : Int)) = (p2 : Int) - (p1 : Int) :=
      toInt16_eq_self _ hd2a hd2b
    have b1 := asr1_bounds ((p1 : Int) - (p0 : Int) + 0) (by omega) (by omega)
    have e3 : toInt16 (asr1 ((p1 : Int) - (p0 : Int) + 0)) = asr1 ((p1 : Int) - (p0 : Int) + 0) :=
      toInt16_eq_self _ b1.1 b1.2
    have b2 := asr1_bounds (((p2 : Int) - (p1 : Int)) + ((p1 : Int) - (p0 : Int)))
      (by omega) (by omega)
    have e4 : toInt16 (asr1 (((p2 : Int) - (p1 : Int)) + ((p1 : Int) - (p0 : Int))))
        = asr1 (((p2 : Int) - (p1 : Int)) + ((p1 : Int) - (p0 : Int))) :=
      toInt16_eq_self _ b2.1 b2.2
    simp only [process_axis_set _ _ _ _ hp0, hu1, e1, e3]
    simp only [process_axis_set _ _ _ _ hp1, hu2, e2, e4]
    simp
  · decide

/-- Witness for C1 at `p0 = 100`, `p1 = 110`, `p2 = 115`. -/
theorem C1_first_deltas_smoothing_witness :
    (let r1 := process_axis ⟨INPUT_EV_ABS, INPUT_ABS_X, ((110 : Nat) : Int), true⟩ 100 0 INPUT_REL_X
     let r2 := process_axis ⟨INPUT_EV_ABS, INPUT_ABS_X, ((115 : Nat) : Int), true⟩
                 r1.previous_pos r1.previous_delta INPUT_REL_X
     r1.suppress = false ∧ r1.event.type = INPUT_EV_REL ∧ r1.event.code = INPUT_REL_X ∧
     r1.event.value = asr1 ((((110 : Nat) : Int) - ((100 : Nat) : Int)) + 0) ∧
     r1.previous_pos = 110 ∧ r1.previous_delta = ((110 : Nat) : Int) - ((100 : Nat) : Int) ∧
     r2.suppress = false ∧ r2.event.type = INPUT_EV_REL ∧
     r2.event.value = asr1 ((((115 : Nat) : Int) - ((110 : Nat) : Int))
       + (((110 : Nat) : Int) - ((100 : Nat) : Int)))) ∧
    (let cfg : absolute_to_relative_config := ⟨false, false⟩
     let r1 := absolute_to_relative_handle_event cfg absolute_to_relative_init_data
                 ⟨INPUT_EV_KEY, INPUT_BTN_TOUCH, 1, true⟩
     let r2 := absolute_to_relative_handle_event cfg r1.data ⟨INPUT_EV_ABS, INPUT_ABS_X, 100, true⟩
     let r3 := absolute_to_relative_handle_event cfg r2.data ⟨INPUT_EV_ABS, INPUT_ABS_X, 110, true⟩
     let r4 := absolute_to_relative_handle_event cfg r3.data ⟨INPUT_EV_ABS, INPUT_ABS_X, 115, true⟩
     let r5 := absolute_to_relative_handle_event cfg r4.data ⟨INPUT_EV_ABS, INPUT_ABS_Y, 500, true⟩
     let r6 := absolute_to_relative_handle_event cfg r5.data ⟨INPUT_EV_ABS, INPUT_ABS_Y, 498, true⟩
     r1.disposition = ZMK_INPUT_PROC_CONTINUE ∧ r1.data.touching = true ∧
     r1.data.previous_x = COORD_UNINITIALIZED ∧ r1.data.previous_y = COORD_UNINITIALIZED ∧
     r2.disposition = ZMK_INPUT_PROC_STOP ∧
     r3.disposition = ZMK_INPUT_PROC_CONTINUE ∧ r3.event.type = INPUT_EV_REL ∧
     r3.event.code = INPUT_REL_X ∧ r3.event.value = 5 ∧
     r4.disposition = ZMK_INPUT_PROC_CONTINUE ∧ r4.event.value = 7 ∧
     r5.disposition = ZMK_INPUT_PROC_STOP ∧
     r6.disposition = ZMK_INPUT_PROC_CONTINUE ∧ r6.event.type = INPUT_EV_REL ∧
     r6.event.code = INPUT_REL_Y ∧ r6.event.value = -1) :=
  C1_first_deltas_smoothing 100 110 115 (by decide) (by decide) (by decide)
    (by decide) (by decide) (by decide) (by decide)

/-- C2 counterexample: the claim says the intermediate sum
`raw_delta + last_delta` is truncated to 16 bits before the arithmetic
right shift. On the run contact-start, X=0, X=20000, X=40000 the last
sample has `raw_delta = 20000` and `last_delta = 20000`; the code emits
`(20000 + 20000) >> 1 = 20000`, while truncating the sum to 16 bits first
would give `toInt16 40000 >> 1 = -12768`. -/
theorem C2_sum_truncation_counterexample :
    let cfg : absolute_to_relative_config := ⟨false, false⟩
    let r1 := absolute_to_relative_handle_event cfg absolute_to_relative_init_data
                ⟨INPUT_EV_KEY, INPUT_BTN_TOUCH, 1, true⟩
    let r2 := absolute_to_relative_handle_event cfg r1.data ⟨INPUT_EV_ABS, INPUT_ABS_X, 0, true⟩
    let r3 := absolute_to_relative_handle_event cfg r2.data ⟨INPUT_EV_ABS, INPUT_ABS_X, 20000, true⟩
    let r4 := absolute_to_relative_handle_event cfg r3.data ⟨INPUT_EV_ABS, INPUT_ABS_X, 40000, true⟩
    r3.data.previous_dx = 20000 ∧
    r4.data.previous_dx = 20000 ∧
    r4.event.value = 20000 ∧
    asr1 (toInt16 (20000 + 20000)) = -12768 ∧
    r4.event.value ≠ asr1 (toInt16 (20000 + 20000)) := by decide

/-- C2 (amended): the delta subtraction `value - last_position` reproduces
signed 16-bit wraparound exactly; the smoothing sum `raw_delta + last_delta`
is computed exactly in the wider `int` type and arithmetically
right-shifted with no prior 16-bit truncation; the shifted result always
lies in `[-32768, 32768)`, so the truncation on storing it into the 16-bit
event delta is the identity. -/
theorem C2_smoothing_arithmetic_amended (e : input_event) (prev : Nat) (pd : Int) (rc : Nat)
    (hprev : prev ≠ COORD_UNINITIALIZED) (hpd1 : -32768 ≤ pd) (hpd2 : pd < 32768) :
    let r := process_axis e prev pd rc
    r.suppress = false ∧
    r.previous_delta = toInt16 ((toUInt16 e.value : Int) - (prev : Int)) ∧
    r.event.value = asr1 (r.previous_delta + pd) ∧
    -32768 ≤ r.event.value ∧ r.event.value < 32768 := by
  have hb := toInt16_bounds ((toUInt16 e.value : Int) - (prev : Int))
  have hs := asr1_bounds (toInt16 ((toUInt16 e.value : Int) - (prev : Int)) + pd)
    (by omega) (by omega)
  have he : toInt16 (asr1 (toInt16 ((toUInt16 e.value : Int) - (prev : Int)) + pd))
      = asr1 (toInt16 ((toUInt16 e.value : Int) - (prev : Int)) + pd) :=
    toInt16_eq_self _ hs.1 hs.2
  simp only [process_axis_set _ _ _ _ hprev, he]
  exact ⟨trivial, trivial, trivial, hs.1, hs.2⟩

/-- Witness for the amended C2 at `value = 40000`, `prev = 20000`,
`last_delta = 20000`. -/
theorem C2_smoothing_arithmetic_amended_witness :
    let r := process_axis ⟨INPUT_EV_ABS, INPUT_ABS_X, 40000, true⟩ 20000 20000 INPUT_REL_X
    r.suppress = false ∧
    r.previous_delta = toInt16 ((toUInt16 (40000 : Int) : Int) - ((20000 : Nat) : Int)) ∧
    r.event.value = asr1 (r.previous_delta + 20000) ∧
    -32768 ≤ r.event.value ∧ r.event.value < 32768 :=
  C2_smoothing_arithmetic_amended ⟨INPUT_EV_ABS, INPUT_ABS_X, 40000, true⟩ 20000 20000
    INPUT_REL_X (by decide) (by decide) (by decide)

/-- C3: the first axis sample processed on an axis while contact is active
and that axis is unset yields disposition Stop with the event marked
invalid (never a relative emission), stores the sample's value as the
axis's last position, zeroes its last delta, and leaves the other axis and
the contact flag untouched. -/
theorem C3_first_sample_suppressed (config : absolute_to_relative_config)
    (data : absolute_to_relative_data) (e : input_event)
    (ht : data.touching = true) (htype : e.type = INPUT_EV_ABS)
    (hcode : e.code = INPUT_ABS_X ∨ e.code = INPUT_ABS_Y)
    (hunset : axisPos data e.code = COORD_UNINITIALIZED)
    (hv0 : 0 ≤ e.value) (hv1 : e.value < 65536) :
    let r := absolute_to_relative_handle_event config data e
    r.disposition = ZMK_INPUT_PROC_STOP ∧
    (axisPos r.data e.code : Int) = e.value ∧
    axisDelta r.data e.code = 0 ∧
    otherAxisPos r.data e.code = otherAxisPos data e.code ∧
    otherAxisDelta r.data e.code = otherAxisDelta data e.code ∧
    r.event.code = COORD_INVALID_ZERO ∧ r.event.sync = false ∧
    r.event.type = e.type ∧ r.data.touching = data.touching := by
  have hval : (toUInt16 e.value : Int) = e.value := toUInt16_int_cast _ hv0 hv1
  rcases hcode with hc | hc
  · have hx : data.previous_x = COORD_UNINITIALIZED := by
      simpa [axisPos, hc] using hunset
    simp only [handle_event_abs_x config data e ht htype hc, hx, process_axis_unset]
    simp [axisPos, axisDelta, otherAxisPos, otherAxisDelta, hc, hval, ht, htype]
  · have hy : data.previous_y = COORD_UNINITIALIZED := by
      simp only [axisPos, hc] at hunset
      simpa [INPUT_ABS_Y, INPUT_ABS_X] using hunset
    simp only [handle_event_abs_y config data e ht htype hc, hy, process_axis_unset]
    simp [axisPos, axisDelta, otherAxisPos, otherAxisDelta, hc, hval, ht, htype,
          INPUT_ABS_Y, INPUT_ABS_X]

/-- Witness for C3: first X sample 100 while touching with X unset. -/
theorem C3_first_sample_suppressed_witness :
    let data : absolute_to_relative_data := ⟨COORD_UNINITIALIZED, 7, 0, 3, true⟩
    let e : input_event := ⟨INPUT_EV_ABS, INPUT_ABS_X, 100, true⟩
    let r := absolute_to_relative_handle_event ⟨false, false⟩ data e
    r.disposition = ZMK_INPUT_PROC_STOP ∧
    (axisPos r.data e.code : Int) = e.value ∧
    axisDelta r.data e.code = 0 ∧
    otherAxisPos r.data e.code = otherAxisPos data e.code ∧
    otherAxisDelta r.data e.code = otherAxisDelta data e.code ∧
    r.event.code = COORD_INVALID_ZERO ∧ r.event.sync = false ∧
    r.event.type = e.type ∧ r.data.touching = data.touching :=
  C3_first_sample_suppressed ⟨false, false⟩ ⟨COORD_UNINITIALIZED, 7, 0, 3, true⟩
    ⟨INPUT_EV_ABS, INPUT_ABS_X, 100, true⟩ rfl rfl (Or.inl rfl)
    (by decide) (by decide) (by decide)

/-- C4: axis smoothing state is reset exactly on a contact-start and never
on a contact-end: a contact-signal event that is not a press leaves all
four axis fields untouched (only clearing `touching`), a press resets both
axes via `touch_init`, and contact-end followed immediately by
contact-start makes the next axis sample suppressed regardless of the
samples received before the contact-end. -/
theorem C4_reset_on_contact_start_only (config : absolute_to_relative_config)
    (data : absolute_to_relative_data) (e_end e_start e_samp : input_event)
    (h1t : e_end.type = INPUT_EV_KEY) (h1c : e_end.code = INPUT_BTN_TOUCH)
    (h1v : e_end.value ≠ 1)
    (h2t : e_start.type = INPUT_EV_KEY) (h2c : e_start.code = INPUT_BTN_TOUCH)
    (h2v : e_start.value = 1)
    (h3t : e_samp.type = INPUT_EV_ABS)
    (h3c : e_samp.code = INPUT_ABS_X ∨ e_samp.code = INPUT_ABS_Y) :
    let d1 := (absolute_to_relative_handle_event config data e_end).data
    let d2 := (absolute_to_relative_handle_event config d1 e_start).data
    let r3 := absolute_to_relative_handle_event config d2 e_samp
    d1.previous_x = data.previous_x ∧ d1.previous_y = data.previous_y ∧
    d1.previous_dx = data.previous_dx ∧ d1.previous_dy = data.previous_dy ∧
    d1.touching = false ∧
    d2 = touch_init { d1 with touching := true } ∧
    d2.previous_x = COORD_UNINITIALIZED ∧ d2.previous_y = COORD_UNINITIALIZED ∧
    d2.previous_dx = 0 ∧ d2.previous_dy = 0 ∧ d2.touching = true ∧
    r3.disposition = ZMK_INPUT_PROC_STOP := by
  have hd1 : (absolute_to_relative_handle_event config data e_end).data
      = { data with touching := false } := by
    rw [handle_event_key_touch config data e_end h1t h1c]
    cases hc : config.suppress_btn_touch <;> simp [handle_touch_button, h1v, hc]
  have hd2 : (absolute_to_relative_handle_event config { data with touching := false } e_start).data
      = touch_init { data with touching := true } := by
    rw [handle_event_key_touch config _ e_start h2t h2c]
    cases hc : config.suppress_btn_touch <;>
      simp [handle_touch_button, h2v, hc, touch_init]
  have hstop : (absolute_to_relative_handle_event config
      (touch_init { data with touching := true }) e_samp).disposition
      = ZMK_INPUT_PROC_STOP := by
    rcases h3c with hc | hc
    · rw [handle_event_abs_x config _ e_samp rfl h3t hc]
      simp [touch_init, process_axis_unset]
    · rw [handle_event_abs_y config _ e_samp rfl h3t hc]
      simp [touch_init, process_axis_unset]
  simp only [touch_init] at hstop
  simp [hd1, hd2, hstop, touch_init]

/-- Witness for C4: release (value 0), press (value 1), then X sample 50. -/
theorem C4_reset_on_contact_start_only_witness :
    let d1 := (absolute_to_relative_handle_event ⟨false, false⟩ ⟨5, 7, 2, 3, true⟩
                ⟨INPUT_EV_KEY, INPUT_BTN_TOUCH, 0, true⟩).data
    let d2 := (absolute_to_relative_handle_event ⟨false, false⟩ d1
                ⟨INPUT_EV_KEY, INPUT_BTN_TOUCH, 1, true⟩).data
    let r3 := absolute_to_relative_handle_event ⟨false, false⟩ d2
                ⟨INPUT_EV_ABS, INPUT_ABS_X, 50, true⟩
    d1.previous_x = (⟨5, 7, 2, 3, true⟩ : absolute_to_relative_data).previous_x ∧
    d1.previous_y = (⟨5, 7, 2, 3, true⟩ : absolute_to_relative_data).previous_y ∧
    d1.previous_dx = (⟨5, 7, 2, 3, true⟩ : absolute_to_relative_data).previous_dx ∧
    d1.previous_dy = (⟨5, 7, 2, 3, true⟩ : absolute_to_relative_data).previous_dy ∧
    d1.touching = false ∧
    d2 = touch_init { d1 with touching := true } ∧
    d2.previous_x = COORD_UNINITIALIZED ∧ d2.previous_y = COORD_UNINITIALIZED ∧
    d2.previous_dx = 0 ∧ d2.previous_dy = 0 ∧ d2.touching = true ∧
    r3.disposition = ZMK_INPUT_PROC_STOP :=
  C4_reset_on_contact_start_only ⟨false, false⟩ ⟨5, 7, 2, 3, true⟩
    ⟨INPUT_EV_KEY, INPUT_BTN_TOUCH, 0, true⟩ ⟨INPUT_EV_KEY, INPUT_BTN_TOUCH, 1, true⟩
    ⟨INPUT_EV_ABS, INPUT_ABS_X, 50, true⟩ rfl rfl (by decide) rfl rfl rfl rfl (Or.inl rfl)

/-- C5: with `suppress_btn_touch` configured, every `BTN_TOUCH` event
(contact start or end) returns Stop with the event's code rewritten to the
invalid sentinel and its sync flag cleared, while the resulting instance
data is exactly what an unsuppressing configuration would produce. -/
theorem C5_suppress_contact_signal (config : absolute_to_relative_config)
    (data : absolute_to_relative_data) (e : input_event)
    (hs : config.suppress_btn_touch = true)
    (htype : e.type = INPUT_EV_KEY) (hcode : e.code = INPUT_BTN_TOUCH) :
    let r := absolute_to_relative_handle_event config data e
    r.disposition = ZMK_INPUT_PROC_STOP ∧
    r.event.code = COORD_INVALID_ZERO ∧ r.event.sync = false ∧
    r.data = (absolute_to_relative_handle_event ⟨false, config.suppress_btn0⟩ data e).data := by
  rw [handle_event_key_touch config data e htype hcode,
      handle_event_key_touch ⟨false, config.suppress_btn0⟩ data e htype hcode]
  simp [handle_touch_button, hs]

/-- Witness for C5: suppressed contact-start on a touching instance. -/
theorem C5_suppress_contact_signal_witness :
    let r := absolute_to_relative_handle_event ⟨true, false⟩ ⟨5, 7, 2, 3, false⟩
               ⟨INPUT_EV_KEY, INPUT_BTN_TOUCH, 1, true⟩
    r.disposition = ZMK_INPUT_PROC_STOP ∧
    r.event.code = COORD_INVALID_ZERO ∧ r.event.sync = false ∧
    r.data = (absolute_to_relative_handle_event ⟨false, false⟩ ⟨5, 7, 2, 3, false⟩
               ⟨INPUT_EV_KEY, INPUT_BTN_TOUCH, 1, true⟩).data :=
  C5_suppress_contact_signal ⟨true, false⟩ ⟨5, 7, 2, 3, false⟩
    ⟨INPUT_EV_KEY, INPUT_BTN_TOUCH, 1, true⟩ rfl rfl rfl

/-- C6 counterexample: the claim says `last_position` is the unset sentinel
iff no axis sample has been accepted since the most recent reset. After a
contact-start, X samples 100 and then 65535 are both accepted (the ghost
marks `acceptedX`), yet the stored X position is the sentinel again. -/
theorem C6_sentinel_sample_counterexample :
    let cfg : absolute_to_relative_config := ⟨false, false⟩
    let s3 := ghostStep cfg (ghostStep cfg (ghostStep cfg initTraceState
                ⟨INPUT_EV_KEY, INPUT_BTN_TOUCH, 1, true⟩)
                ⟨INPUT_EV_ABS, INPUT_ABS_X, 100, true⟩)
                ⟨INPUT_EV_ABS, INPUT_ABS_X, 65535, true⟩
    Reachable cfg s3 ∧ s3.acceptedX = true ∧
    s3.st.previous_x = COORD_UNINITIALIZED ∧ s3.st.touching = true :=
  ⟨Reachable.step (Reachable.step (Reachable.step Reachable.init _) _) _,
   by decide, by decide, by decide⟩

/-- C6 (amended): for every reachable state, an axis's `last_position` is
the unset sentinel iff no axis sample has been accepted on that axis since
the most recent reset, or the most recently accepted sample on that axis
had low 16 bits equal to 0xFFFF (the sentinel value itself). -/
theorem C6_unset_iff_amended (config : absolute_to_relative_config) (s : TraceState)
    (h : Reachable config s) :
    (s.st.previous_x = COORD_UNINITIALIZED ↔
      (s.acceptedX = false ∨ s.lastX = COORD_UNINITIALIZED)) ∧
    (s.st.previous_y = COORD_UNINITIALIZED ↔
      (s.acceptedY = false ∨ s.lastY = COORD_UNINITIALIZED)) := by
  have inv := ghostInv_reachable config s h
  constructor
  · cases hx : s.acceptedX
    · simp [inv.2.1 hx]
    · rw [inv.1 hx]; simp [hx]
  · cases hy : s.acceptedY
    · simp [inv.2.2.2 hy]
    · rw [inv.2.2.1 hy]; simp [hy]

/-- Witness for the amended C6 at the reachable state after a contact-start
and one X sample of 100. -/
theorem C6_unset_iff_amended_witness :
    let cfg : absolute_to_relative_config := ⟨false, false⟩
    let s2 := ghostStep cfg (ghostStep cfg initTraceState
                ⟨INPUT_EV_KEY, INPUT_BTN_TOUCH, 1, true⟩)
                ⟨INPUT_EV_ABS, INPUT_ABS_X, 100, true⟩
    Reachable cfg s2 ∧
    ((s2.st.previous_x = COORD_UNINITIALIZED ↔
       (s2.acceptedX = false ∨ s2.lastX = COORD_UNINITIALIZED)) ∧
     (s2.st.previous_y = COORD_UNINITIALIZED ↔
       (s2.acceptedY = false ∨ s2.lastY = COORD_UNINITIALIZED))) :=
  ⟨Reachable.step (Reachable.step Reachable.init _) _,
   C6_unset_iff_amended _ _ (Reachable.step (Reachable.step Reachable.init _) _)⟩

/-- C7: an absolute-axis event arriving while contact is not active is
passed through with disposition Continue, the event record unmodified, and
the instance state unchanged. -/
theorem C7_transparent_without_contact (config : absolute_to_relative_config)
    (data : absolute_to_relative_data) (e : input_event)
    (ht : data.touching = false) (htype : e.type = INPUT_EV_ABS) :
    let r := absolute_to_relative_handle_event config data e
    r.disposition = ZMK_INPUT_PROC_CONTINUE ∧ r.event = e ∧ r.data = data := by
  rw [handle_event_pass_not_touching config data e ht htype]
  exact ⟨rfl, rfl, rfl⟩

/-- Witness for C7: X sample 123 with no active contact. -/
theorem C7_transparent_without_contact_witness :
    let r := absolute_to_relative_handle_event ⟨false, false⟩ ⟨5, 7, 2, 3, false⟩
               ⟨INPUT_EV_ABS, INPUT_ABS_X, 123, true⟩
    r.disposition = ZMK_INPUT_PROC_CONTINUE ∧
    r.event = ⟨INPUT_EV_ABS, INPUT_ABS_X, 123, true⟩ ∧
    r.data = ⟨5, 7, 2, 3, false⟩ :=
  C7_transparent_without_contact ⟨false, false⟩ ⟨5, 7, 2, 3, false⟩
    ⟨INPUT_EV_ABS, INPUT_ABS_X, 123, true⟩ rfl rfl

/-- C8: a `BTN_0` event returns Stop with the event marked suppressed when
`suppress_btn0` is configured, and Continue with the event unmodified
otherwise; in both cases the instance data is untouched. -/
theorem C8_aux_button_suppression (config : absolute_to_relative_config)
    (data : absolute_to_relative_data) (e : input_event)
    (htype : e.type = INPUT_EV_KEY) (hcode : e.code = INPUT_BTN_0) :
    let r := absolute_to_relative_handle_event config data e
    r.data = data ∧
    r.disposition = (if config.suppress_btn0 = true then ZMK_INPUT_PROC_STOP
                     else ZMK_INPUT_PROC_CONTINUE) ∧
    r.event = (if config.suppress_btn0 = true
               then { e with code := COORD_INVALID_ZERO, sync := false } else e) := by
  rw [handle_event_key_btn0 config data e htype hcode]
  cases hc : config.suppress_btn0 <;> simp [handle_button_suppress, hc]

/-- Witness for C8 with `suppress_btn0` configured. -/
theorem C8_aux_button_suppression_witness :
    let r := absolute_to_relative_handle_event ⟨false, true⟩ ⟨5, 7, 2, 3, true⟩
               ⟨INPUT_EV_KEY, INPUT_BTN_0, 1, true⟩
    r.data = ⟨5, 7, 2, 3, true⟩ ∧
    r.disposition = (if (true : Bool) = true then ZMK_INPUT_PROC_STOP
                     else ZMK_INPUT_PROC_CONTINUE) ∧
    r.event = (if (true : Bool) = true
               then { (⟨INPUT_EV_KEY, INPUT_BTN_0, 1, true⟩ : input_event) with
                      code := COORD_INVALID_ZERO, sync := false }
               else ⟨INPUT_EV_KEY, INPUT_BTN_0, 1, true⟩) :=
  C8_aux_button_suppression ⟨false, true⟩ ⟨5, 7, 2, 3, true⟩
    ⟨INPUT_EV_KEY, INPUT_BTN_0, 1, true⟩ rfl rfl

/-- C9: an axis sample whose low 16 bits are 0xFFFF, processed while
contact is active on an axis with a valid prior position, emits a relative
event (Continue) but stores the sentinel as that axis's position, so the
axis re-enters the unset state and the next sample on the same axis is
suppressed even though no reset occurred. -/
theorem C9_sentinel_value_reenters_unset (config : absolute_to_relative_config)
    (data : absolute_to_relative_data) (e e2 : input_event)
    (ht : data.touching = true) (htype : e.type = INPUT_EV_ABS)
    (hcode : e.code = INPUT_ABS_X ∨ e.code = INPUT_ABS_Y)
    (hvalid : axisPos data e.code ≠ COORD_UNINITIALIZED)
    (hval : e.value % 65536 = 65535)
    (h2t : e2.type = INPUT_EV_ABS) (h2c : e2.code = e.code) :
    let r := absolute_to_relative_handle_event config data e
    r.disposition = ZMK_INPUT_PROC_CONTINUE ∧
    r.event.type = INPUT_EV_REL ∧
    axisPos r.data e.code = COORD_UNINITIALIZED ∧
    r.data.touching = data.touching ∧
    (absolute_to_relative_handle_event config r.data e2).disposition = ZMK_INPUT_PROC_STOP ∧
    (absolute_to_relative_handle_event config r.data e2).event.code = COORD_INVALID_ZERO := by
  have hu : toUInt16 e.value = COORD_UNINITIALIZED := by
    unfold toUInt16 COORD_UNINITIALIZED; omega
  rcases hcode with hc | hc
  · have hx : data.previous_x ≠ COORD_UNINITIALIZED := by
      simpa [axisPos, hc] using hvalid
    rw [handle_event_abs_x config data e ht htype hc]
    rw [process_axis_set e _ _ _ hx]
    refine ⟨by simp, by simp, by simp [axisPos, hc, hu], by simp, ?_, ?_⟩
    · rw [handle_event_abs_x config _ e2 (by simp [ht]) h2t (h2c.trans hc)]
      simp [hu, process_axis_unset]
    · rw [handle_event_abs_x config _ e2 (by simp [ht]) h2t (h2c.trans hc)]
      simp [hu, process_axis_unset]
  · have hy : data.previous_y ≠ COORD_UNINITIALIZED := by
      simp only [axisPos, hc] at hvalid
      simpa [INPUT_ABS_Y, INPUT_ABS_X] using hvalid
    rw [handle_event_abs_y config data e ht htype hc]
    rw [process_axis_set e _ _ _ hy]
    refine ⟨by simp, by simp, by simp [axisPos, hc, hu, INPUT_ABS_Y, INPUT_ABS_X], by simp, ?_, ?_⟩
    · rw [handle_event_abs_y config _ e2 (by simp [ht]) h2t (h2c.trans hc)]
      simp [hu, process_axis_unset]
    · rw [handle_event_abs_y config _ e2 (by simp [ht]) h2t (h2c.trans hc)]
      simp [hu, process_axis_unset]

/-- Witness for C9: X sample 65535 after a valid prior position 100, then
X sample 200. -/
theorem C9_sentinel_value_reenters_unset_witness :
    let data : absolute_to_relative_data := ⟨100, 7, 0, 3, true⟩
    let e : input_event := ⟨INPUT_EV_ABS, INPUT_ABS_X, 65535, true⟩
    let e2 : input_event := ⟨INPUT_EV_ABS, INPUT_ABS_X, 200, true⟩
    let r := absolute_to_relative_handle_event ⟨false, false⟩ data e
    r.disposition = ZMK_INPUT_PROC_CONTINUE ∧
    r.event.type = INPUT_EV_REL ∧
    axisPos r.data e.code = COORD_UNINITIALIZED ∧
    r.data.touching = data.touching ∧
    (absolute_to_relative_handle_event ⟨false, false⟩ r.data e2).disposition
      = ZMK_INPUT_PROC_STOP ∧
    (absolute_to_relative_handle_event ⟨false, false⟩ r.data e2).event.code
      = COORD_INVALID_ZERO :=
  C9_sentinel_value_reenters_unset ⟨false, false⟩ ⟨100, 7, 0, 3, true⟩
    ⟨INPUT_EV_ABS, INPUT_ABS_X, 65535, true⟩ ⟨INPUT_EV_ABS, INPUT_ABS_X, 200, true⟩
    rfl rfl (Or.inl rfl) (by decide) (by decide) rfl rfl

/-- C10: a `BTN_TOUCH` event sets `touching` and resets the axes exactly
when its value equals 1; any other value (2, negative, ...) is treated as
a release, clearing `touching` and leaving all axis state untouched. -/
theorem C10_pressed_iff_value_one (config : absolute_to_relative_config)
    (data : absolute_to_relative_data) (e : input_event)
    (htype : e.type = INPUT_EV_KEY) (hcode : e.code = INPUT_BTN_TOUCH) :
    let r := absolute_to_relative_handle_event config data e
    r.data.touching = (if e.value = 1 then true else false) ∧
    r.data.previous_x = (if e.value = 1 then COORD_UNINITIALIZED else data.previous_x) ∧
    r.data.previous_y = (if e.value = 1 then COORD_UNINITIALIZED else data.previous_y) ∧
    r.data.previous_dx = (if e.value = 1 then 0 else data.previous_dx) ∧
    r.data.previous_dy = (if e.value = 1 then 0 else data.previous_dy) := by
  rw [handle_event_key_touch config data e htype hcode]
  by_cases hv : e.value = 1 <;>
    cases hc : config.suppress_btn_touch <;>
      simp [handle_touch_button, hv, hc, touch_init]

/-- Witness for C10: a `BTN_TOUCH` event with value 2 acts as a release. -/
theorem C10_pressed_iff_value_one_witness :
    let r := absolute_to_relative_handle_event ⟨false, false⟩ ⟨5, 7, 2, 3, true⟩
               ⟨INPUT_EV_KEY, INPUT_BTN_TOUCH, 2, true⟩
    r.data.touching = (if (2 : Int) = 1 then true else false) ∧
    r.data.previous_x = (if (2 : Int) = 1 then COORD_UNINITIALIZED else 5) ∧
    r.data.previous_y = (if (2 : Int) = 1 then COORD_UNINITIALIZED else 7) ∧
    r.data.previous_dx = (if (2 : Int) = 1 then 0 else 2) ∧
    r.data.previous_dy = (if (2 : Int) = 1 then 0 else 3) :=
  C10_pressed_iff_value_one ⟨false, false⟩ ⟨5, 7, 2, 3, true⟩
    ⟨INPUT_EV_KEY, INPUT_BTN_TOUCH, 2, true⟩ rfl rfl

end AbsToRel
